import Mathlib

/-!
Verification development for the gproxy request-dispatch engine.

The definitions below are a shallow embedding of the Rust sources of the
gproxy repository: pure functions become Lean functions, stateful stream
loops become explicit state passing over lists of chunks or events, and
traffic recording becomes an explicit list of emitted record events.
Each definition cites the source file and function it embeds.
-/

namespace GProxy

/-- Header maps are modelled as association lists with lowercased names,
matching the canonical (lowercase) storage of `http::HeaderMap`. -/
abbrev Headers := List (String × String)

/-- Embeds `HeaderMap::get`: the first value stored under the given
(lowercase) header name. -/
def header_get (headers : Headers) (name : String) : Option String :=
  (headers.find? (fun kv => kv.1 = name)).map (fun kv => kv.2)

/-- Embeds `DisallowScope` from gproxy-provider-core (re-exported in
`gproxy_provider_core::disallow`): either all models or one model name. -/
inductive DisallowScope where
  | allModels
  | model (name : String)
deriving DecidableEq

/-- Embeds `DisallowLevel`: `Cooldown`, `Transient`, or `Dead`. -/
inductive DisallowLevel where
  | cooldown
  | transient
  | dead
deriving DecidableEq

/-- Embeds `DisallowMark` as produced by
`src/crates/gproxy-provider-impl/src/upstream.rs`: a scope, a level, an
optional duration in whole seconds, and an optional reason string. -/
structure DisallowMark where
  scope : DisallowScope
  level : DisallowLevel
  duration : Option Nat
  reason : Option String
deriving DecidableEq

/-- Embeds Rust `str::parse::<u64>`: an optional leading plus sign followed
by at least one ASCII digit, with the value bounded by `2 ^ 64`. -/
def parseU64 (s : String) : Option Nat :=
  let chars :=
    match s.data with
    | '+' :: rest => rest
    | cs => cs
  if chars.isEmpty then none
  else if chars.all (fun c => c.isDigit) then
    let n := chars.foldl (fun acc c => acc * 10 + (c.toNat - 48)) 0
    if n < 2 ^ 64 then some n else none
  else none

/-- Embeds `retry_after_seconds` from
`src/crates/gproxy-provider-impl/src/upstream.rs` lines 109-126.
The external `httpdate::parse_http_date` crate call is abstracted as the
`parseHttpDate` argument returning epoch seconds, and `SystemTime::now()`
as the `now` argument in epoch seconds; `duration_since` fails (yielding
`None`) when the parsed date is before `now`. -/
def retry_after_seconds (headers : Headers) (parseHttpDate : String → Option Nat)
    (now : Nat) : Option Nat :=
  match header_get headers "retry-after" with
  | none => none
  | some value =>
    let value := value.trim
    match parseU64 value with
    | some seconds => some seconds
    | none =>
      match parseHttpDate value with
      | some when_at => if now ≤ when_at then some (when_at - now) else none
      | none => none

/-- Embeds `classify_status` from
`src/crates/gproxy-provider-impl/src/upstream.rs` lines 76-107. HTTP status
codes are modelled as natural numbers. -/
def classify_status (status : Nat) (headers : Headers)
    (parseHttpDate : String → Option Nat) (now : Nat) (scope : DisallowScope) :
    Option DisallowMark :=
  if status = 401 ∨ status = 403 then
    some { scope := scope, level := DisallowLevel.dead, duration := none,
           reason := some "auth_error" }
  else if status = 429 then
    let retryAfter := (retry_after_seconds headers parseHttpDate now).getD 60
    some { scope := scope, level := DisallowLevel.cooldown, duration := some retryAfter,
           reason := some "rate_limit" }
  else if status = 502 ∨ status = 503 ∨ status = 504 then
    some { scope := scope, level := DisallowLevel.transient, duration := some 30,
           reason := some "upstream_unavailable" }
  else none

/-- A fixed HTTP-date oracle that never parses; used to instantiate
witnesses at concrete inputs. -/
def no_http_date : String → Option Nat := fun _ => none

/-- C1: `classify_status` maps 401/403 to a `Dead` mark with reason
"auth_error" and no duration; 429 to a `Cooldown` mark whose duration is the
parsed `Retry-After` value (integer seconds, or an HTTP date relative to
now) defaulting to 60 seconds when the header is absent or unparseable;
502/503/504 to a `Transient` mark with a 30-second duration; and every
other status (including all other 4xx and 5xx) to no mark. -/
theorem classify_status_spec (status : Nat) (headers : Headers)
    (parseHttpDate : String → Option Nat) (now : Nat) (scope : DisallowScope) :
    (status = 401 ∨ status = 403 →
      classify_status status headers parseHttpDate now scope =
        some ⟨scope, DisallowLevel.dead, none, some "auth_error"⟩) ∧
    (classify_status 429 headers parseHttpDate now scope =
      some ⟨scope, DisallowLevel.cooldown,
        some ((retry_after_seconds headers parseHttpDate now).getD 60),
        some "rate_limit"⟩) ∧
    (header_get headers "retry-after" = none →
      retry_after_seconds headers parseHttpDate now = none) ∧
    (∀ v s, header_get headers "retry-after" = some v → parseU64 v.trim = some s →
      retry_after_seconds headers parseHttpDate now = some s) ∧
    (∀ v w, header_get headers "retry-after" = some v → parseU64 v.trim = none →
      parseHttpDate v.trim = some w → now ≤ w →
      retry_after_seconds headers parseHttpDate now = some (w - now)) ∧
    (∀ v, header_get headers "retry-after" = some v → parseU64 v.trim = none →
      parseHttpDate v.trim = none →
      retry_after_seconds headers parseHttpDate now = none) ∧
    (status = 502 ∨ status = 503 ∨ status = 504 →
      classify_status status headers parseHttpDate now scope =
        some ⟨scope, DisallowLevel.transient, some 30, some "upstream_unavailable"⟩) ∧
    (status ≠ 401 → status ≠ 403 → status ≠ 429 → status ≠ 502 → status ≠ 503 →
      status ≠ 504 →
      classify_status status headers parseHttpDate now scope = none) := by
  refine ⟨?_, ?_, ?_, ?_, ?_, ?_, ?_, ?_⟩
  · intro h
    simp only [classify_status, if_pos h]
  · simp [classify_status]
  · intro h
    simp [retry_after_seconds, h]
  · intro v s hv hs
    simp [retry_after_seconds, hv, hs]
  · intro v w hv hs hw hnow
    simp [retry_after_seconds, hv, hs, hw, hnow]
  · intro v hv hs hw
    simp [retry_after_seconds, hv, hs, hw]
  · intro h
    have h1 : ¬(status = 401 ∨ status = 403) := by
      rcases h with h | h | h <;> omega
    have h2 : status ≠ 429 := by
      rcases h with h | h | h <;> omega
    simp only [classify_status, if_neg h1, if_neg h2, if_pos h]
  · intro h1 h2 h3 h4 h5 h6
    have ha : ¬(status = 401 ∨ status = 403) := by omega
    have hb : ¬(status = 502 ∨ status = 503 ∨ status = 504) := by omega
    simp only [classify_status, if_neg ha, if_neg h3, if_neg hb]

/-- Witness for C1: the 401 case at a concrete input. -/
theorem classify_status_spec_witness :
    classify_status 401 [] no_http_date 0 DisallowScope.allModels =
      some ⟨DisallowScope.allModels, DisallowLevel.dead, none, some "auth_error"⟩ :=
  (classify_status_spec 401 [] no_http_date 0 DisallowScope.allModels).1 (Or.inl rfl)

/-- Embeds `UpstreamPassthroughError` (gproxy-provider-core response type):
an upstream status, headers and body forwarded verbatim. -/
structure UpstreamPassthroughError where
  status : Nat
  headers : Headers
  body : String
deriving DecidableEq

/-- Modelled from the spec: `UpstreamPassthroughError::service_unavailable`
(gproxy-provider-core/src/response.rs is not under src/). Per the spec,
transform parse/serialize failures surface as 503 `service_unavailable`
with a diagnostic body. -/
def UpstreamPassthroughError.service_unavailable (msg : String) :
    UpstreamPassthroughError :=
  { status := 503, headers := [], body := msg }

/-! ## Credential pool (claim C4)

The credential pool lives in gproxy-provider-core/src/credential_pool.rs,
which is not under src/; only its re-export in lib.rs is. The definitions
below are therefore modelled from the spec, section 4.3. -/

/-- Modelled from the spec: a pool credential entry with stable integer id,
non-negative integer weight and an enabled flag
(gproxy-provider-core/src/credential_pool.rs is not under src/). -/
structure CredentialEntry where
  id : Nat
  weight : Nat
  enabled : Bool
deriving DecidableEq

/-- Modelled from the spec: a disallow entry attached to a credential and a
scope, with an optional `until` timestamp; absence of `until` means the mark
is indefinite (gproxy-provider-core/src/credential_pool.rs is not under
src/). -/
structure DisallowRecord where
  scope : DisallowScope
  level : DisallowLevel
  until_at : Option Nat
deriving DecidableEq

/-- Modelled from the spec: an immutable pool snapshot holding the ordered
credential list and the disallow overlay, keyed by credential id. -/
structure PoolSnapshot where
  credentials : List CredentialEntry
  disallow : List (Nat × DisallowRecord)
deriving DecidableEq

/-- Modelled from the spec: a disallow mark is active while its `until` has
not expired; a missing `until` makes it indefinite. -/
def disallow_active (now : Nat) (entry : DisallowRecord) : Bool :=
  match entry.until_at with
  | none => true
  | some t => decide (now < t)

/-- Modelled from the spec, section 4.3 step 2: the eligibility list keeps
the credentials that are enabled, carry no active `AllModels` disallow, and
carry no active disallow at the requested scope. -/
def eligible_credentials (snapshot : PoolSnapshot) (scope : DisallowScope)
    (now : Nat) : List CredentialEntry :=
  snapshot.credentials.filter (fun c =>
    c.enabled &&
    !(snapshot.disallow.any (fun e =>
        e.1 == c.id && e.2.scope == DisallowScope.allModels && disallow_active now e.2)) &&
    !(snapshot.disallow.any (fun e =>
        e.1 == c.id && e.2.scope == scope && disallow_active now e.2)))

/-- Modelled from the spec, section 4.3 step 3: credential `a` comes before
`b` when its weight is higher, with ties broken by ascending id. -/
def credential_priority_le (a b : CredentialEntry) : Bool :=
  decide (b.weight < a.weight) || (a.weight == b.weight && decide (a.id ≤ b.id))

/-- Insertion step of the deterministic eligibility ordering. -/
def insert_by_priority (c : CredentialEntry) :
    List CredentialEntry → List CredentialEntry
  | [] => [c]
  | d :: rest =>
    if credential_priority_le c d then c :: d :: rest
    else d :: insert_by_priority c rest

/-- Modelled from the spec: eligible credentials ordered by descending
weight, ties broken by ascending credential id. -/
def order_eligibles : List CredentialEntry → List CredentialEntry
  | [] => []
  | c :: rest => insert_by_priority c (order_eligibles rest)

/-- Embeds `AttemptFailure` (re-exported by gproxy-provider-core): a
passthrough error for the caller plus an optional disallow mark. -/
structure AttemptFailure where
  passthrough : UpstreamPassthroughError
  mark : Option DisallowMark

/-- Modelled from the spec: the synthetic failure returned when the
eligibility list is initially empty is a 503 `no_credentials_available`. -/
def no_credentials_available : UpstreamPassthroughError :=
  { status := 503, headers := [], body := "no_credentials_available" }

/-- Modelled from the spec, section 4.3 steps 4-5: try each eligible
credential in order; a success returns immediately, the last failure's
passthrough is surfaced, and an initially empty list fails fast with the
synthetic 503. The second component lists the ids of the credentials whose
attempt function was invoked. -/
def execute_attempts {T : Type} (attempt : CredentialEntry → Except AttemptFailure T) :
    List CredentialEntry → Except UpstreamPassthroughError T × List Nat
  | [] => (Except.error no_credentials_available, [])
  | [c] =>
    match attempt c with
    | Except.ok value => (Except.ok value, [c.id])
    | Except.error failure => (Except.error failure.passthrough, [c.id])
  | c :: d :: rest =>
    match attempt c with
    | Except.ok value => (Except.ok value, [c.id])
    | Except.error _ =>
      let (result, tried) := execute_attempts attempt (d :: rest)
      (result, c.id :: tried)

/-- Modelled from the spec, section 4.3: `CredentialPool::execute` reads the
snapshot once, builds and orders the eligibility list, then runs the attempt
loop. -/
def CredentialPool.execute {T : Type} (snapshot : PoolSnapshot)
    (scope : DisallowScope) (now : Nat)
    (attempt : CredentialEntry → Except AttemptFailure T) :
    Except UpstreamPassthroughError T × List Nat :=
  execute_attempts attempt (order_eligibles (eligible_credentials snapshot scope now))

/-- C4: when the eligibility list is initially empty, `CredentialPool::execute`
fails fast with the synthetic 503 `no_credentials_available` error and never
invokes the attempt function (the list of attempted credential ids is empty,
for every attempt function). -/
theorem execute_pool_empty {T : Type} (snapshot : PoolSnapshot)
    (scope : DisallowScope) (now : Nat)
    (h : eligible_credentials snapshot scope now = []) :
    ∀ attempt : CredentialEntry → Except AttemptFailure T,
      CredentialPool.execute snapshot scope now attempt =
        (Except.error no_credentials_available, []) ∧
      no_credentials_available.status = 503 := by
  intro attempt
  rw [CredentialPool.execute, h]
  exact ⟨rfl, rfl⟩

/-- Snapshot for the C4 witness: one credential, disallowed `AllModels` at
level `Dead` with no expiry, matching the spec's all-dead scenario. -/
def all_dead_snapshot : PoolSnapshot :=
  { credentials := [{ id := 1, weight := 10, enabled := true }],
    disallow := [(1, { scope := DisallowScope.allModels,
                       level := DisallowLevel.dead, until_at := none })] }

/-- Witness for C4: the all-dead snapshot fails fast even though the attempt
function would succeed. -/
theorem execute_pool_empty_witness :
    CredentialPool.execute all_dead_snapshot (DisallowScope.model "m") 0
        (fun _ => Except.ok ()) =
      (Except.error no_credentials_available, []) :=
  (execute_pool_empty all_dead_snapshot (DisallowScope.model "m") 0 (by decide)
    (fun _ => Except.ok ())).1

/-! ## HTTP handler (claim C9) -/

/-- Embeds `AuthError` from gproxy-core: a status (401 for missing or
disabled keys) and a body. -/
structure AuthError where
  status : Nat
  body : String

/-- Embeds `ProxyError` from gproxy-core: a client-error status and body. -/
structure ProxyError where
  status : Nat
  body : String

/-- The axum `Response` as far as the claims observe it: a status code and a
body (stream bodies are not inspected by any claim and are modelled as the
empty body). -/
structure HttpResponse where
  status : Nat
  body : String
deriving DecidableEq

/-- Modelled from the spec: `ProxyError::not_found`
(gproxy-core/src/error.rs is not under src/); the handler maps an unknown
provider to a 404 client error. -/
def ProxyError.not_found (msg : String) : ProxyError :=
  { status := 404, body := msg }

/-- Embeds `error_response` from gproxy-core/src/handler.rs. -/
def error_response (err : ProxyError) : HttpResponse :=
  { status := err.status, body := err.body }

/-- Embeds `auth_error_response` from gproxy-core/src/handler.rs. -/
def auth_error_response (err : AuthError) : HttpResponse :=
  { status := err.status, body := err.body }

/-- Embeds `passthrough_error` from gproxy-core/src/handler.rs. -/
def passthrough_error (err : UpstreamPassthroughError) : HttpResponse :=
  { status := err.status, body := err.body }

/-- Embeds `proxy_handler` from
src/crates/gproxy-core/src/handler.rs lines 17-54: provider lookup happens
first, then authentication, then request classification, then the provider
call. The registry lookup, the auth guard, the classifier result and the
provider call are the handler's collaborators and appear as arguments; the
response constructors for the success paths are abstracted by
`proxy_response` since no claim inspects them. -/
def proxy_handler {H A R : Type}
    (lookup : String → Option H)
    (authenticate : Headers → Except AuthError A)
    (classified : Except ProxyError R)
    (call : H → R → A → Except UpstreamPassthroughError HttpResponse)
    (provider : String) (headers : Headers) : HttpResponse :=
  match lookup provider with
  | none => error_response (ProxyError.not_found "unknown provider")
  | some handle =>
    match authenticate headers with
    | Except.error err => auth_error_response err
    | Except.ok auth_ctx =>
      match classified with
      | Except.error err => error_response err
      | Except.ok req =>
        match call handle req auth_ctx with
        | Except.ok response => response
        | Except.error err => passthrough_error err

/-- C9: when the path names a provider absent from the registry,
`proxy_handler` returns the 404 unknown-provider error before authentication
is evaluated: the result is the 404 error response, and it does not depend
on the authenticate function at all (in particular a request with a missing
or invalid API key still receives 404, not 401). -/
theorem proxy_handler_unknown_provider {H A R : Type}
    (lookup : String → Option H)
    (auth1 auth2 : Headers → Except AuthError A)
    (classified : Except ProxyError R)
    (call : H → R → A → Except UpstreamPassthroughError HttpResponse)
    (provider : String) (headers : Headers)
    (h : lookup provider = none) :
    proxy_handler lookup auth1 classified call provider headers =
      error_response (ProxyError.not_found "unknown provider") ∧
    (proxy_handler lookup auth1 classified call provider headers).status = 404 ∧
    proxy_handler lookup auth1 classified call provider headers =
      proxy_handler lookup auth2 classified call provider headers := by
  simp [proxy_handler, h, error_response, ProxyError.not_found]

/-- An auth guard that rejects every request with 401; used by the C9
witness. -/
def reject_all_auth : Headers → Except AuthError Unit :=
  fun _ => Except.error { status := 401, body := "unauthorized" }

/-- Witness for C9: an unknown provider with an always-401 auth guard still
yields the 404 unknown-provider response. -/
theorem proxy_handler_unknown_provider_witness :
    proxy_handler (fun _ => (none : Option Unit)) reject_all_auth
        (Except.error { status := 400, body := "bad request" } : Except ProxyError Unit)
        (fun _ _ _ => Except.error (UpstreamPassthroughError.service_unavailable "x"))
        "nosuch" [] =
      error_response (ProxyError.not_found "unknown provider") :=
  (proxy_handler_unknown_provider (fun _ => (none : Option Unit)) reject_all_auth
    reject_all_auth
    (Except.error { status := 400, body := "bad request" })
    (fun _ _ _ => Except.error (UpstreamPassthroughError.service_unavailable "x"))
    "nosuch" [] rfl).1

/-! ## Traffic usage extraction (claims C10 and C6) -/

/-- Embeds `TrafficUsage` (gproxy-provider-core): a flat bag of optional
integer counters keyed by dialect, defaulting to all-absent, exactly the
fields constructed in src/crates/gproxy-provider-impl/src/dispatch.rs. -/
structure TrafficUsage where
  claude_input_tokens : Option Int := none
  claude_output_tokens : Option Int := none
  claude_total_tokens : Option Int := none
  claude_cache_creation_input_tokens : Option Int := none
  claude_cache_read_input_tokens : Option Int := none
  gemini_prompt_tokens : Option Int := none
  gemini_candidates_tokens : Option Int := none
  gemini_total_tokens : Option Int := none
  gemini_cached_tokens : Option Int := none
  openai_chat_prompt_tokens : Option Int := none
  openai_chat_completion_tokens : Option Int := none
  openai_chat_total_tokens : Option Int := none
  openai_responses_input_tokens : Option Int := none
  openai_responses_output_tokens : Option Int := none
  openai_responses_total_tokens : Option Int := none
  openai_responses_input_cached_tokens : Option Int := none
  openai_responses_output_reasoning_tokens : Option Int := none
deriving DecidableEq

/-- A `serde_json::Value`: JSON values with numbers restricted to the
integers, which are the only numbers the extraction claims concern. -/
inductive Json where
  | null
  | bool (b : Bool)
  | num (n : Int)
  | str (s : String)
  | arr (items : List Json)
  | obj (fields : List (String × Json))

/-- Embeds `serde_json::Value::get` on objects: the value stored under the
key, if the value is an object holding it. -/
def Json.get : Json → String → Option Json
  | Json.obj fields, key => (fields.find? (fun kv => kv.1 = key)).map (fun kv => kv.2)
  | _, _ => none

/-- Embeds `serde_json::Value::as_i64`: defined exactly on integer numbers
in the signed 64-bit range. -/
def Json.as_i64 : Json → Option Int
  | Json.num n => if -(2 ^ 63) ≤ n ∧ n < 2 ^ 63 then some n else none
  | _ => none

/-- Embeds `extract_claude_usage_from_body` from
src/crates/gproxy-provider-impl/src/dispatch.rs lines 680-714. The argument
is the result of `serde_json::from_slice` on the body bytes (`none` models a
parse failure). If a `usage` object holds at least one of `input_tokens` /
`output_tokens`, those counters are taken and the total is their sum only
when both are present; otherwise control falls through to the top-level
`input_tokens` field, which also becomes the total. -/
def extract_claude_usage_from_body (body : Option Json) : Option TrafficUsage :=
  match body with
  | none => none
  | some value =>
    let top_level := fun (value : Json) =>
      match (value.get "input_tokens").bind Json.as_i64 with
      | some tokens =>
        some { claude_input_tokens := some tokens,
               claude_total_tokens := some tokens : TrafficUsage }
      | none => none
    match value.get "usage" with
    | some usage =>
      let input_tokens := (usage.get "input_tokens").bind Json.as_i64
      let output_tokens := (usage.get "output_tokens").bind Json.as_i64
      let cache_creation := (usage.get "cache_creation_input_tokens").bind Json.as_i64
      let cache_read := (usage.get "cache_read_input_tokens").bind Json.as_i64
      if input_tokens.isSome || output_tokens.isSome then
        let total_tokens :=
          match input_tokens, output_tokens with
          | some input, some output => some (input + output)
          | _, _ => none
        some { claude_input_tokens := input_tokens,
               claude_output_tokens := output_tokens,
               claude_total_tokens := total_tokens,
               claude_cache_creation_input_tokens := cache_creation,
               claude_cache_read_input_tokens := cache_read }
      else top_level value
    | none => top_level value

/-- C10: when the `usage` object carries both `input_tokens` and
`output_tokens` as integers i and o, the extracted `claude_total_tokens` is
exactly i + o; when exactly one of the two is present no total is
synthesized; and a body without a `usage` object whose top-level
`input_tokens` is an integer t yields `claude_total_tokens` = t. -/
theorem extract_claude_usage_total (value usage : Json) :
    (value.get "usage" = some usage →
      ∀ i o, (usage.get "input_tokens").bind Json.as_i64 = some i →
        (usage.get "output_tokens").bind Json.as_i64 = some o →
        (extract_claude_usage_from_body (some value)).map
            (fun u => u.claude_total_tokens) = some (some (i + o))) ∧
    (value.get "usage" = some usage →
      ∀ i, (usage.get "input_tokens").bind Json.as_i64 = some i →
        (usage.get "output_tokens").bind Json.as_i64 = none →
        (extract_claude_usage_from_body (some value)).map
            (fun u => u.claude_total_tokens) = some none) ∧
    (value.get "usage" = some usage →
      ∀ o, (usage.get "input_tokens").bind Json.as_i64 = none →
        (usage.get "output_tokens").bind Json.as_i64 = some o →
        (extract_claude_usage_from_body (some value)).map
            (fun u => u.claude_total_tokens) = some none) ∧
    (value.get "usage" = none →
      ∀ t, (value.get "input_tokens").bind Json.as_i64 = some t →
        (extract_claude_usage_from_body (some value)).map
            (fun u => u.claude_total_tokens) = some (some t)) := by
  refine ⟨?_, ?_, ?_, ?_⟩
  · intro hu i o hi ho
    simp [extract_claude_usage_from_body, hu, hi, ho]
  · intro hu i hi ho
    simp [extract_claude_usage_from_body, hu, hi, ho]
  · intro hu o hi ho
    simp [extract_claude_usage_from_body, hu, hi, ho]
  · intro hu t ht
    simp [extract_claude_usage_from_body, hu, ht]

/-- Body for the C10 witness: a usage object with both counters. -/
def c10_body : Json :=
  Json.obj [("usage", Json.obj [("input_tokens", Json.num 3),
                                ("output_tokens", Json.num 4)])]

/-- Witness for C10: both counters present yields the exact sum 3 + 4. -/
theorem extract_claude_usage_total_witness :
    (extract_claude_usage_from_body (some c10_body)).map
        (fun u => u.claude_total_tokens) = some (some 7) :=
  (extract_claude_usage_total c10_body
      (Json.obj [("input_tokens", Json.num 3), ("output_tokens", Json.num 4)])).1
    rfl 3 4 (by simp [Json.get, Json.as_i64]) (by simp [Json.get, Json.as_i64])

/-! ## Dispatch plans and usage kinds (claim C6) -/

/-- Embeds `UsageKind` from
src/crates/gproxy-provider-impl/src/dispatch/plan.rs lines 4-11. -/
inductive UsageKind where
  | none
  | claudeMessage
  | geminiGenerate
  | openAIChat
  | openAIResponses
deriving DecidableEq

/-- Embeds `GeminiApiVersion` from gproxy-provider-core. -/
inductive GeminiApiVersion where
  | v1
  | v1beta
deriving DecidableEq

/-- Embeds `GenerateContentPlan` from dispatch/plan.rs lines 18-33. The
request DTO payloads are opaque to usage classification and are omitted;
the Gemini version tag is kept. -/
inductive GenerateContentPlan where
  | claude2Gemini (version : GeminiApiVersion)
  | gemini2Claude
  | openAIResponses2Claude
  | openAIResponses2Gemini (version : GeminiApiVersion)
deriving DecidableEq

/-- Embeds `StreamContentPlan` from dispatch/plan.rs lines 35-50. -/
inductive StreamContentPlan where
  | claude2Gemini (version : GeminiApiVersion)
  | gemini2Claude
  | openAIResponses2Claude
  | openAIResponses2Gemini (version : GeminiApiVersion)
deriving DecidableEq

/-- Embeds `CountTokensPlan` from dispatch/plan.rs lines 52-67. -/
inductive CountTokensPlan where
  | claude2Gemini (version : GeminiApiVersion)
  | gemini2Claude
  | openAIInputTokens2Claude
  | openAIInputTokens2Gemini (version : GeminiApiVersion)
deriving DecidableEq

/-- Embeds `ModelsListPlan` from dispatch/plan.rs lines 69-84. -/
inductive ModelsListPlan where
  | claude2Gemini (version : GeminiApiVersion)
  | gemini2Claude
  | openAI2Claude
  | openAI2Gemini (version : GeminiApiVersion)
deriving DecidableEq

/-- Embeds `ModelsGetPlan` from dispatch/plan.rs lines 86-101. -/
inductive ModelsGetPlan where
  | claude2Gemini (version : GeminiApiVersion)
  | gemini2Claude
  | openAI2Claude
  | openAI2Gemini (version : GeminiApiVersion)
deriving DecidableEq

/-- Embeds `TransformPlan` from dispatch/plan.rs lines 103-109. -/
inductive TransformPlan where
  | generateContent (plan : GenerateContentPlan)
  | streamContent (plan : StreamContentPlan)
  | countTokens (plan : CountTokensPlan)
  | modelsList (plan : ModelsListPlan)
  | modelsGet (plan : ModelsGetPlan)
deriving DecidableEq

/-- Embeds `upstream_usage_for_plan` from dispatch/plan.rs lines 111-129:
the usage kind of the upstream dialect a transform plan sends on the wire. -/
def upstream_usage_for_plan : TransformPlan → UsageKind
  | TransformPlan.generateContent plan =>
    match plan with
    | GenerateContentPlan.claude2Gemini _ => UsageKind.geminiGenerate
    | GenerateContentPlan.gemini2Claude => UsageKind.claudeMessage
    | GenerateContentPlan.openAIResponses2Claude => UsageKind.claudeMessage
    | GenerateContentPlan.openAIResponses2Gemini _ => UsageKind.geminiGenerate
  | TransformPlan.streamContent plan =>
    match plan with
    | StreamContentPlan.claude2Gemini _ => UsageKind.geminiGenerate
    | StreamContentPlan.gemini2Claude => UsageKind.claudeMessage
    | StreamContentPlan.openAIResponses2Claude => UsageKind.claudeMessage
    | StreamContentPlan.openAIResponses2Gemini _ => UsageKind.geminiGenerate
  | TransformPlan.countTokens _ => UsageKind.none
  | TransformPlan.modelsList _ => UsageKind.none
  | TransformPlan.modelsGet _ => UsageKind.none

/-- Embeds the usage-kind selection of `dispatch_transform`
(dispatch/transform.rs lines 52-56): the downstream `usage` argument is
shadowed and the recorders receive `upstream_usage_for_plan(&plan)`. -/
def dispatch_transform_usage (_downstream_usage : UsageKind)
    (plan : TransformPlan) : UsageKind :=
  upstream_usage_for_plan plan

/-- Embeds `map_claude_usage_to_gemini` from
src/crates/gproxy-provider-impl/src/dispatch.rs lines 776-794. -/
def map_claude_usage_to_gemini (usage : TrafficUsage) : Option TrafficUsage :=
  let input_tokens := usage.claude_input_tokens
  let output_tokens := usage.claude_output_tokens
  if input_tokens.isNone && output_tokens.isNone then none
  else
    let total_tokens :=
      match input_tokens, output_tokens with
      | some input, some output => some (input + output)
      | _, _ => none
    some { gemini_prompt_tokens := input_tokens,
           gemini_candidates_tokens := output_tokens,
           gemini_total_tokens := total_tokens,
           gemini_cached_tokens := usage.claude_cache_read_input_tokens }

/-- Embeds `map_claude_usage_to_openai_responses` from
src/crates/gproxy-provider-impl/src/dispatch.rs lines 796-813. -/
def map_claude_usage_to_openai_responses (usage : TrafficUsage) :
    Option TrafficUsage :=
  let input_tokens := usage.claude_input_tokens
  let output_tokens := usage.claude_output_tokens
  if input_tokens.isNone && output_tokens.isNone then none
  else
    let total_tokens :=
      match input_tokens, output_tokens with
      | some input, some output => some (input + output)
      | _, _ => none
    some { openai_responses_input_tokens := input_tokens,
           openai_responses_output_tokens := output_tokens,
           openai_responses_total_tokens := total_tokens,
           openai_responses_input_cached_tokens := usage.claude_cache_read_input_tokens,
           openai_responses_output_reasoning_tokens := Option.none }

/-- Embeds `map_usage_for_kind` from
src/crates/gproxy-provider-impl/src/dispatch.rs lines 814-839: for the
Gemini and OpenAI-Responses kinds, usage that already carries that dialect's
fields passes through, otherwise the Claude counters are projected into that
dialect's shape; every other kind passes the usage through unchanged. -/
def map_usage_for_kind (kind : UsageKind) (usage : Option TrafficUsage) :
    Option TrafficUsage :=
  match usage with
  | Option.none => Option.none
  | some usage =>
    match kind with
    | UsageKind.geminiGenerate =>
      if usage.gemini_total_tokens.isSome || usage.gemini_prompt_tokens.isSome ||
          usage.gemini_candidates_tokens.isSome then
        some usage
      else map_claude_usage_to_gemini usage
    | UsageKind.openAIResponses =>
      if usage.openai_responses_total_tokens.isSome ||
          usage.openai_responses_input_tokens.isSome ||
          usage.openai_responses_output_tokens.isSome then
        some usage
      else map_claude_usage_to_openai_responses usage
    | _ => some usage

/-- Embeds the upstream-recorder usage computation of
`transform_claude_stream` (dispatch/transform.rs lines 679-709): with usage
kind `None` no usage state is kept; otherwise a Claude envelope state
accumulates the upstream Claude stream and its finished value (the argument
`claude_envelope`, the result of `ClaudeUsageState::finish`) runs through
`map_usage_for_kind` keyed by that same upstream kind. -/
def transform_claude_stream_recorded_usage (usage : UsageKind)
    (claude_envelope : Option TrafficUsage) : Option TrafficUsage :=
  match usage with
  | UsageKind.none => Option.none
  | _ => map_usage_for_kind usage claude_envelope

/-- Embeds the upstream-recorder usage computation of
`transform_gemini_stream` (dispatch/transform.rs lines 857-887): with usage
kind `None` no usage state is kept; otherwise a Gemini usage state scans the
upstream Gemini stream and its finished value runs through
`map_usage_for_kind` keyed by that same upstream kind. -/
def transform_gemini_stream_recorded_usage (usage : UsageKind)
    (gemini_state_usage : Option TrafficUsage) : Option TrafficUsage :=
  match usage with
  | UsageKind.none => Option.none
  | _ => map_usage_for_kind usage gemini_state_usage

/-- Follows the spec's words, not the source: projecting a Claude-style
envelope usage into the shape of the DOWNSTREAM dialect named by the given
usage kind. Used only to compare the spec sentence against the code. -/
def spec_project_claude_envelope_downstream (downstream : UsageKind)
    (usage : TrafficUsage) : Option TrafficUsage :=
  match downstream with
  | UsageKind.geminiGenerate => map_claude_usage_to_gemini usage
  | UsageKind.openAIResponses => map_claude_usage_to_openai_responses usage
  | _ => some usage

/-- Claude envelope usage for the C6 counterexample. -/
def c6_envelope : TrafficUsage :=
  { claude_input_tokens := some 1, claude_output_tokens := some 2,
    claude_total_tokens := some 3 }

/-- C6 counterexample: for the streaming Gemini2Claude plan (downstream
dialect Gemini, upstream dialect Claude) the upstream recorder keeps the
Claude-envelope usage in the Claude shape; it is NOT projected into the
downstream (Gemini) usage shape as the claim states. -/
theorem c6_recorded_usage_not_downstream_shape :
    transform_claude_stream_recorded_usage
        (upstream_usage_for_plan
          (TransformPlan.streamContent StreamContentPlan.gemini2Claude))
        (some c6_envelope) = some c6_envelope ∧
    (some c6_envelope).map (fun u => u.gemini_prompt_tokens) = some Option.none ∧
    spec_project_claude_envelope_downstream UsageKind.geminiGenerate c6_envelope ≠
      transform_claude_stream_recorded_usage
        (upstream_usage_for_plan
          (TransformPlan.streamContent StreamContentPlan.gemini2Claude))
        (some c6_envelope) := by
  refine ⟨rfl, rfl, ?_⟩
  decide

/-- C6 amended: the usage kind used by the upstream recorder is the usage
kind of the upstream dialect actually sent on the wire (GeminiGenerate for
*2Gemini generate/stream plans, ClaudeMessage for *2Claude generate/stream
plans, None for count-tokens, models-list and models-get plans), not the
downstream request's kind; when the upstream is a Claude stream the recorded
usage is the Claude-envelope usage passed through `map_usage_for_kind` keyed
by that upstream kind, which for `ClaudeMessage` keeps the Claude shape
unchanged (no projection into the downstream dialect's shape); and when a
Gemini upstream stream yields no usage, no usage is recorded. -/
theorem c6_upstream_usage_amended :
    (∀ v, upstream_usage_for_plan
        (TransformPlan.generateContent (GenerateContentPlan.claude2Gemini v)) =
      UsageKind.geminiGenerate) ∧
    (upstream_usage_for_plan
        (TransformPlan.generateContent GenerateContentPlan.gemini2Claude) =
      UsageKind.claudeMessage) ∧
    (upstream_usage_for_plan
        (TransformPlan.generateContent GenerateContentPlan.openAIResponses2Claude) =
      UsageKind.claudeMessage) ∧
    (∀ v, upstream_usage_for_plan
        (TransformPlan.generateContent (GenerateContentPlan.openAIResponses2Gemini v)) =
      UsageKind.geminiGenerate) ∧
    (∀ v, upstream_usage_for_plan
        (TransformPlan.streamContent (StreamContentPlan.claude2Gemini v)) =
      UsageKind.geminiGenerate) ∧
    (upstream_usage_for_plan
        (TransformPlan.streamContent StreamContentPlan.gemini2Claude) =
      UsageKind.claudeMessage) ∧
    (upstream_usage_for_plan
        (TransformPlan.streamContent StreamContentPlan.openAIResponses2Claude) =
      UsageKind.claudeMessage) ∧
    (∀ v, upstream_usage_for_plan
        (TransformPlan.streamContent (StreamContentPlan.openAIResponses2Gemini v)) =
      UsageKind.geminiGenerate) ∧
    (∀ p, upstream_usage_for_plan (TransformPlan.countTokens p) = UsageKind.none) ∧
    (∀ p, upstream_usage_for_plan (TransformPlan.modelsList p) = UsageKind.none) ∧
    (∀ p, upstream_usage_for_plan (TransformPlan.modelsGet p) = UsageKind.none) ∧
    (∀ d1 d2 plan, dispatch_transform_usage d1 plan = dispatch_transform_usage d2 plan) ∧
    (∀ plan, dispatch_transform_usage UsageKind.geminiGenerate plan =
      upstream_usage_for_plan plan) ∧
    (∀ u, transform_claude_stream_recorded_usage UsageKind.claudeMessage (some u) =
      some u) ∧
    (transform_gemini_stream_recorded_usage UsageKind.geminiGenerate Option.none =
      Option.none) := by
  refine ⟨fun v => rfl, rfl, rfl, fun v => rfl, fun v => rfl, rfl, rfl, fun v => rfl,
    fun p => rfl, fun p => rfl, fun p => rfl, fun d1 d2 plan => rfl, fun plan => rfl,
    fun u => rfl, rfl⟩

/-! ## Traffic recording pipeline (claims C2, C3, C5) -/

/-- Marker for `DownstreamRecordMeta`: the request-side envelope captured
before sending. Its payload is never inspected by the claims. -/
inductive DownstreamRecordMeta where
  | mk
deriving DecidableEq

/-- The slice of `CallContext` the recording claims observe: whether the
downstream-recording metadata is present. The traffic sink handle is
modelled by returning the list of emitted record events instead. -/
structure CallContext where
  downstream_meta : Option DownstreamRecordMeta
deriving DecidableEq

/-- A traffic record emitted to the sink: one upstream record (carrying the
extracted usage) or one downstream record. -/
inductive RecordEvent where
  | upstream (usage : Option TrafficUsage)
  | downstream
deriving DecidableEq

/-- Embeds `ProxyResponse` (gproxy-provider-core): a buffered JSON response
or a byte stream. Stream chunks are the items of `bytes_stream()`: either a
chunk (modelled as a string of bytes) or a transport error message. -/
inductive ProxyResponse where
  | json (status : Nat) (headers : Headers) (body : String)
  | stream (status : Nat) (headers : Headers) (chunks : List (Except String String))

/-- Number of upstream records in an event list. -/
def count_upstream (events : List RecordEvent) : Nat :=
  (events.filter (fun e =>
    match e with
    | RecordEvent.upstream _ => true
    | RecordEvent.downstream => false)).length

/-- Number of downstream records in an event list. -/
def count_downstream (events : List RecordEvent) : Nat :=
  (events.filter (fun e =>
    match e with
    | RecordEvent.upstream _ => false
    | RecordEvent.downstream => true)).length

/-- Embeds `record_upstream_only` from dispatch/record.rs lines 17-40: a
JSON response emits exactly one upstream record with the usage extracted for
the given kind; a stream response is passed through untouched (its recording
happens in the stream path). The usage extractor `extract_usage_for_kind` is
the `extract` argument. -/
def record_upstream_only (extract : UsageKind → String → Option TrafficUsage)
    (response : ProxyResponse) (usage : UsageKind) (_ctx : CallContext) :
    ProxyResponse × List RecordEvent :=
  match response with
  | ProxyResponse.json status headers body =>
    (ProxyResponse.json status headers body,
     [RecordEvent.upstream (extract usage body)])
  | ProxyResponse.stream status headers chunks =>
    (ProxyResponse.stream status headers chunks, [])

/-- Embeds the JSON branch of `record_upstream_and_downstream` from
dispatch/record.rs lines 49-73: one upstream record always, and one
downstream record exactly when the context carries `downstream_meta`. -/
def record_upstream_and_downstream_json
    (extract : UsageKind → String → Option TrafficUsage)
    (status : Nat) (headers : Headers) (body : String)
    (usage : UsageKind) (ctx : CallContext) :
    ProxyResponse × List RecordEvent :=
  let events :=
    RecordEvent.upstream (extract usage body) ::
      (match ctx.downstream_meta with
       | some _ => [RecordEvent.downstream]
       | none => [])
  (ProxyResponse.json status headers body, events)

/-- Embeds the stream branch of `record_upstream_and_downstream` from
dispatch/record.rs lines 142-154: the unfold loop yields every upstream item
unchanged downstream (errors keep their message through
`io::Error::new(..., err.to_string())`) and additionally sends each `Ok`
chunk to the recording channel. The first component is the downstream wire
stream, the second the chunks seen by the recorder. -/
def record_upstream_and_downstream_stream :
    List (Except String String) → List (Except String String) × List String
  | [] => ([], [])
  | Except.ok bytes :: rest =>
    let (down, recorded) := record_upstream_and_downstream_stream rest
    (Except.ok bytes :: down, bytes :: recorded)
  | Except.error err :: rest =>
    let (down, recorded) := record_upstream_and_downstream_stream rest
    (Except.error err :: down, recorded)

/-- C3: for a native (non-transform) streaming response, the byte-chunk
sequence delivered downstream is exactly the upstream sequence - the
recording fan-out inserts, drops and rewrites nothing - and the recorder
observes exactly the `Ok` chunks, in order. Equality of the full item lists
in particular gives equality of the chunk sequences up to the first upstream
error or end of stream. -/
theorem stream_fidelity (upstream : List (Except String String)) :
    (record_upstream_and_downstream_stream upstream).1 = upstream ∧
    (record_upstream_and_downstream_stream upstream).2 =
      upstream.filterMap (fun item =>
        match item with
        | Except.ok bytes => some bytes
        | Except.error _ => none) := by
  induction upstream with
  | nil => exact ⟨rfl, rfl⟩
  | cons head rest ih =>
    cases head with
    | ok bytes =>
      simp [record_upstream_and_downstream_stream, ih.1, ih.2]
    | error err =>
      simp [record_upstream_and_downstream_stream, ih.1, ih.2]

/-- Embeds `scrub_headers` from dispatch/transform.rs lines 1194-1197:
removes the hop-by-hop `Content-Length` and `Transfer-Encoding` headers. -/
def scrub_headers (headers : Headers) : Headers :=
  headers.filter (fun kv =>
    kv.1 != "content-length" && kv.1 != "transfer-encoding")

/-- Embeds `transform_json_response` from dispatch/transform.rs lines
614-652. The serde parse of the source-dialect body and the serialize of the
transformed value are the `parse` and `serialize` arguments (each failing
with the serde error message); a parse or serialize failure becomes a 503
`service_unavailable` passthrough error carrying the message. On success the
headers are scrubbed and one downstream record is emitted exactly when the
context carries `downstream_meta`. -/
def transform_json_response {T U : Type} (parse : String → Except String T)
    (transform : T → U) (serialize : U → Except String String)
    (response : ProxyResponse) (ctx : CallContext) :
    Except UpstreamPassthroughError (ProxyResponse × List RecordEvent) :=
  match response with
  | ProxyResponse.json status headers body =>
    match parse body with
    | Except.error err =>
      Except.error (UpstreamPassthroughError.service_unavailable err)
    | Except.ok parsed =>
      match serialize (transform parsed) with
      | Except.error err =>
        Except.error (UpstreamPassthroughError.service_unavailable err)
      | Except.ok mapped_body =>
        let headers := scrub_headers headers
        let events :=
          match ctx.downstream_meta with
          | some _ => [RecordEvent.downstream]
          | none => []
        Except.ok (ProxyResponse.json status headers mapped_body, events)
  | ProxyResponse.stream _ _ _ =>
    Except.error (UpstreamPassthroughError.service_unavailable "expected json response")

/-- Embeds the unary transform pipeline of `dispatch_transform`
(dispatch/transform.rs, every GenerateContent / CountTokens / ModelsList /
ModelsGet arm): `record_upstream_only` on the native response, then
`transform_json_response`; the emitted events are the concatenation. -/
def dispatch_transform_unary {T U : Type}
    (extract : UsageKind → String → Option TrafficUsage)
    (parse : String → Except String T) (transform : T → U)
    (serialize : U → Except String String)
    (response : ProxyResponse) (usage : UsageKind) (ctx : CallContext) :
    Except UpstreamPassthroughError (ProxyResponse × List RecordEvent) :=
  let (upstream_recorded, upstream_events) :=
    record_upstream_only extract response usage ctx
  match transform_json_response parse transform serialize upstream_recorded ctx with
  | Except.ok (final, downstream_events) =>
    Except.ok (final, upstream_events ++ downstream_events)
  | Except.error err => Except.error err

/-- C2: a successful unary (JSON) dispatch emits exactly one upstream
record, and exactly one downstream record if and only if `downstream_meta`
was present on entry - on the native path
(`record_upstream_and_downstream`, JSON branch) and on the transform path
(`record_upstream_only` followed by `transform_json_response`). -/
theorem unary_record_count {T U : Type}
    (extract : UsageKind → String → Option TrafficUsage)
    (parse : String → Except String T) (transform : T → U)
    (serialize : U → Except String String)
    (status : Nat) (headers : Headers) (body : String)
    (response : ProxyResponse) (usage : UsageKind) (ctx : CallContext) :
    (count_upstream (record_upstream_and_downstream_json extract status headers body
        usage ctx).2 = 1 ∧
     count_downstream (record_upstream_and_downstream_json extract status headers body
        usage ctx).2 = if ctx.downstream_meta.isSome then 1 else 0) ∧
    (∀ final events,
      dispatch_transform_unary extract parse transform serialize response usage ctx =
        Except.ok (final, events) →
      count_upstream events = 1 ∧
      count_downstream events = if ctx.downstream_meta.isSome then 1 else 0) := by
  constructor
  · cases hm : ctx.downstream_meta <;>
      simp [record_upstream_and_downstream_json, count_upstream, count_downstream, hm]
  · intro final events hok
    cases response with
    | json s h b =>
      cases hp : parse b with
      | error err =>
        simp [dispatch_transform_unary, record_upstream_only,
              transform_json_response, hp] at hok
      | ok parsed =>
        cases hs : serialize (transform parsed) with
        | error err =>
          simp [dispatch_transform_unary, record_upstream_only,
                transform_json_response, hp, hs] at hok
        | ok mapped =>
          cases hm : ctx.downstream_meta with
          | none =>
            simp [dispatch_transform_unary, record_upstream_only,
                  transform_json_response, hp, hs, hm] at hok
            simp [← hok.2, count_upstream, count_downstream, hm]
          | some m =>
            simp [dispatch_transform_unary, record_upstream_only,
                  transform_json_response, hp, hs, hm] at hok
            simp [← hok.2, count_upstream, count_downstream, hm]
    | stream s h c =>
      simp [dispatch_transform_unary, record_upstream_only,
            transform_json_response] at hok

/-- Witness for C2: the transform path at a concrete JSON response with
`downstream_meta` present emits one upstream and one downstream record. -/
theorem unary_record_count_witness :
    count_upstream [RecordEvent.upstream Option.none, RecordEvent.downstream] = 1 ∧
    count_downstream [RecordEvent.upstream Option.none, RecordEvent.downstream] =
      if (CallContext.mk (some DownstreamRecordMeta.mk)).downstream_meta.isSome
      then 1 else 0 :=
  (unary_record_count (fun _ _ => Option.none)
      (fun _ => Except.ok ()) (fun _ => ()) (fun _ => Except.ok "x")
      200 [] "b" (ProxyResponse.json 200 [] "b") UsageKind.none
      (CallContext.mk (some DownstreamRecordMeta.mk))).2
    (ProxyResponse.json 200 [] "x")
    [RecordEvent.upstream Option.none, RecordEvent.downstream] rfl

/-- C5: a transform dispatch whose upstream JSON body fails to parse as the
source-dialect type, or whose transformed value fails to serialize, returns
a 503 `service_unavailable` passthrough error carrying the serde error
message as its diagnostic body - for every such failure. -/
theorem transform_error_503 {T U : Type} (parse : String → Except String T)
    (transform : T → U) (serialize : U → Except String String)
    (status : Nat) (headers : Headers) (body : String) (ctx : CallContext) :
    (∀ err, parse body = Except.error err →
      transform_json_response parse transform serialize
          (ProxyResponse.json status headers body) ctx =
        Except.error { status := 503, headers := [], body := err }) ∧
    (∀ parsed err, parse body = Except.ok parsed →
      serialize (transform parsed) = Except.error err →
      transform_json_response parse transform serialize
          (ProxyResponse.json status headers body) ctx =
        Except.error { status := 503, headers := [], body := err }) := by
  constructor
  · intro err hp
    simp [transform_json_response, hp, UpstreamPassthroughError.service_unavailable]
  · intro parsed err hp hs
    simp [transform_json_response, hp, hs, UpstreamPassthroughError.service_unavailable]

/-- Witness for C5: a concrete always-failing parse yields the 503 error
with the diagnostic message. -/
theorem transform_error_503_witness :
    transform_json_response (fun _ => (Except.error "bad json" : Except String Unit))
        (fun u => u) (fun _ => Except.ok "x")
        (ProxyResponse.json 200 [] "notjson") (CallContext.mk Option.none) =
      Except.error { status := 503, headers := [], body := "bad json" } :=
  (transform_error_503 (fun _ => (Except.error "bad json" : Except String Unit))
      (fun u => u) (fun _ => Except.ok "x") 200 [] "notjson"
      (CallContext.mk Option.none)).1 "bad json" rfl

/-! ## Streaming transform frame processing (claim C7) -/

/-- Embeds the per-event processing of the `transform_claude_stream` unfold
loop (dispatch/transform.rs lines 782-809, identically lines 960-991 and
1140-1177 for the Gemini and OpenAI-Responses upstream variants): each
decoded SSE `data` payload is skipped when empty; otherwise it is parsed as
the upstream event type (`serde_json::from_str`, abstracted as the `parse`
argument) and only on success fed to the stateful transform, whose output
frames extend the pending queue; a payload that fails to parse produces
nothing and processing continues. The transform closure's state is threaded
explicitly; the returned frames are the downstream wire frames in order. -/
def transform_stream_process_events {E S Frame : Type}
    (parse : String → Option E) (step : S → E → S × List Frame) :
    S → List String → S × List Frame
  | s, [] => (s, [])
  | s, data :: rest =>
    if data = "" then transform_stream_process_events parse step s rest
    else
      match parse data with
      | none => transform_stream_process_events parse step s rest
      | some event =>
        let (s1, out) := step s event
        let (s2, outs) := transform_stream_process_events parse step s1 rest
        (s2, out ++ outs)

/-- C7: an SSE data frame whose payload does not parse as the expected
upstream event type is skipped: processing a stream with such a frame
inserted anywhere yields exactly the state and downstream frames of the
stream without it - the malformed frame produces no output, nothing aborts,
and every subsequent well-formed frame is still transformed and delivered. -/
theorem malformed_frame_skipped {E S Frame : Type}
    (parse : String → Option E) (step : S → E → S × List Frame)
    (s : S) (xs ys : List String) (m : String) (hm : parse m = none) :
    transform_stream_process_events parse step s (xs ++ m :: ys) =
      transform_stream_process_events parse step s (xs ++ ys) := by
  induction xs generalizing s with
  | nil =>
    by_cases h0 : m = ""
    · simp [transform_stream_process_events, h0]
    · simp [transform_stream_process_events, h0, hm]
  | cons data rest ih =>
    by_cases h0 : data = ""
    · simp [transform_stream_process_events, h0, ih]
    · cases hp : parse data with
      | none => simp [transform_stream_process_events, h0, hp, ih]
      | some event =>
        simp only [List.cons_append, transform_stream_process_events, h0, hp,
          if_neg h0]
        obtain ⟨s1, out⟩ := step s event
        simp [ih]

/-- Event parser for the C7 witness: only the payload "ok" is well-formed. -/
def c7_parse : String → Option Unit :=
  fun data => if data = "ok" then some () else none

/-- Transform step for the C7 witness: counts events and emits the count. -/
def c7_step : Nat → Unit → Nat × List Nat :=
  fun n _ => (n + 1, [n])

/-- Witness for C7: inserting the malformed payload "bad" between two
well-formed frames leaves the processed output unchanged. -/
theorem malformed_frame_skipped_witness :
    transform_stream_process_events c7_parse c7_step 0 (["ok"] ++ "bad" :: ["ok"]) =
      transform_stream_process_events c7_parse c7_step 0 (["ok"] ++ ["ok"]) :=
  malformed_frame_skipped c7_parse c7_step 0 ["ok"] ["ok"] "bad" rfl

/-! ## Get-model transforms (claim C8) -/

/-- Embeds `ModelType` from gproxy-protocol claude list_models types; the
get-model transform always sets the `Model` variant. -/
inductive ClaudeModelType where
  | model
deriving DecidableEq

/-- Embeds `ModelInfo` from gproxy-protocol claude get_model types; the
`created_at` OffsetDateTime is modelled as an epoch timestamp. -/
structure ClaudeModelInfo where
  id : String
  created_at : Int
  display_name : String
  type' : ClaudeModelType
deriving DecidableEq

/-- Embeds `GetModelResponse` from
src/crates/gproxy-protocol/src/claude/get_model/response.rs. -/
structure ClaudeGetModelResponse where
  request_id : Option String
  model : ClaudeModelInfo
deriving DecidableEq

/-- Embeds `Model` from gproxy-protocol gemini get_model types (the Gemini
get-model response), with the fields the get-model transforms construct. The
generation-metadata fields are never set by either direction and their
numeric payloads are modelled as integers. -/
structure GeminiModel where
  name : String
  base_model_id : String
  version : String
  display_name : Option String
  description : Option String
  input_token_limit : Option Int
  output_token_limit : Option Int
  supported_generation_methods : Option (List String)
  thinking : Option Bool
  temperature : Option Int
  max_temperature : Option Int
  top_p : Option Int
  top_k : Option Int
deriving DecidableEq

/-- Embeds Rust `str::starts_with` as a character-list prefix check. -/
def string_starts_with (s p : String) : Bool :=
  p.data.isPrefixOf s.data

/-- Embeds the result of Rust `str::strip_prefix` after a successful
`starts_with` check: dropping the prefix's characters. -/
def string_drop (s : String) (n : Nat) : String :=
  String.mk (s.data.drop n)

namespace get_model_gemini2claude

/-- Embeds `transform_response` from
src/crates/gproxy-transform/src/get_model/gemini2claude/response.rs lines
6-29: converts a Claude get-model response into Gemini's model shape. The
name is the `models/` prefixed id (kept as-is when already prefixed), the
`base_model_id` is the raw id, the version is the "unknown" placeholder. -/
def transform_response (response : ClaudeGetModelResponse) : GeminiModel :=
  let name :=
    if string_starts_with response.model.id "models/" then response.model.id
    else "models/" ++ response.model.id
  { name := name,
    base_model_id := response.model.id,
    version := "unknown",
    display_name := some response.model.display_name,
    description := none,
    input_token_limit := none,
    output_token_limit := none,
    supported_generation_methods := none,
    thinking := none,
    temperature := none,
    max_temperature := none,
    top_p := none,
    top_k := none }

end get_model_gemini2claude

namespace get_model_claude2gemini

/-- Embeds `transform_response` from
src/crates/gproxy-transform/src/get_model/claude2gemini/response.rs lines
9-31: converts a Gemini get-model response into Claude's shape. The id is
`base_model_id` when non-empty, else the name with a `models/` prefix
stripped, else the name itself; `created_at` is the Unix-epoch placeholder;
the display name falls back to the id. -/
def transform_response (response : GeminiModel) : ClaudeGetModelResponse :=
  let name := response.name
  let base_model_id := response.base_model_id
  let id :=
    if base_model_id ≠ "" then base_model_id
    else if string_starts_with name "models/" then string_drop name 7
    else name
  { request_id := none,
    model := { id := id,
               created_at := 0,
               display_name := response.display_name.getD id,
               type' := ClaudeModelType.model } }

end get_model_claude2gemini

/-- C8: transforming a Claude get-model response into the Gemini shape and
back recovers the model id and display_name (the fields preserved by both
directions); the forward direction sets `name` to the `models/` prefixed id
and `base_model_id` to the raw id, and the reverse direction recovers the id
from `base_model_id` (or, when it is empty, by stripping the `models/`
prefix). -/
theorem get_model_round_trip (x : ClaudeGetModelResponse) :
    (get_model_claude2gemini.transform_response
        (get_model_gemini2claude.transform_response x)).model.id = x.model.id ∧
    (get_model_claude2gemini.transform_response
        (get_model_gemini2claude.transform_response x)).model.display_name =
      x.model.display_name ∧
    (get_model_gemini2claude.transform_response x).base_model_id = x.model.id ∧
    (get_model_gemini2claude.transform_response x).name =
      (if string_starts_with x.model.id "models/" then x.model.id
       else "models/" ++ x.model.id) := by
  obtain ⟨rid, id, created, disp, ty⟩ := x
  by_cases h : id = ""
  · subst h
    exact ⟨rfl, rfl, rfl, rfl⟩
  · refine ⟨?_, rfl, rfl, rfl⟩
    simp [get_model_gemini2claude.transform_response,
          get_model_claude2gemini.transform_response, h]

end GProxy
